import Mathlib

/-
Verification of the chat-template grammar layer (swift/llm/template/register.py)
and the MeanMetric accumulator (swift/plugin/metric.py).

Strings are embedded as `List Char`; Python substring containment (`pat in s`)
and `str.replace` (left-to-right, non-overlapping, replace-all) are modelled
explicitly below.
-/

namespace MsSwift

/-- Python `pat in s` substring test on strings (here as char lists).
For the empty pattern Python returns True. -/
def strHas (pat : List Char) : List Char → Bool
  | [] => pat.isEmpty
  | c :: rest => pat.isPrefixOf (c :: rest) || strHas pat rest

/-- Fuel-driven core of Python `s.replace(pat, rep)`: scan left to right; at a
match, emit `rep` and continue after the matched region (non-overlapping).
Each step consumes at least one character, so fuel `s.length` suffices. -/
def replaceAllAux (pat rep : List Char) : Nat → List Char → List Char
  | 0, s => s
  | _ + 1, [] => []
  | fuel + 1, c :: rest =>
    if pat.isPrefixOf (c :: rest) && !pat.isEmpty then
      rep ++ replaceAllAux pat rep fuel (List.drop (pat.length - 1) rest)
    else
      c :: replaceAllAux pat rep fuel rest

/-- Python `s.replace(pat, rep)` for a non-empty pattern. -/
def replaceAll (pat rep s : List Char) : List Char :=
  replaceAllAux pat rep s.length s

/-- The system placeholder literal. -/
def sysStr : String := "\x7b\x7bSYSTEM\x7d\x7d"

def sysPat : List Char := sysStr.data

/-- The query placeholder literal. -/
def queryStr : String := "\x7b\x7bQUERY\x7d\x7d"

/-- An entry of a token sub-list inside a Prompt: either a symbolic tokenizer
attribute name (Python `str`, e.g. "eos_token_id") or a concrete id (`int`). -/
inductive Tok where
  | name (s : String)
  | id (i : Int)
  deriving DecidableEq

/-- One element of a Prompt: a literal text piece (Python `str`) or a list of
token names/ids (Python `List[Union[str, int]]`). -/
inductive Ctx where
  | s (text : List Char)
  | toks (l : List Tok)
  deriving DecidableEq

/-- `Prompt = List[Union[str, List[Union[str, int]]]]` from template/utils. -/
abbrev Prompt := List Ctx

/-- `Word = Union[str, List[int]]` from template/utils (only carried through). -/
abbrev Word := Sum String (List Int)

/-- Python membership `in` for the placeholder: substring test on a text
element, element membership on a token-list element. -/
def ctxHasSystem : Ctx → Bool
  | .s t => strHas sysPat t
  | .toks l => l.any (fun e => e == Tok.name sysStr)

/-- `TemplateMeta._has_system`: any element contains the system placeholder. -/
def has_system (l : Prompt) : Bool :=
  l.any ctxHasSystem

/-- One element of `TemplateMeta._replace_system`: `p.replace` of the
placeholder by the empty string. A token-list element has no `replace`
method, so Python raises AttributeError there: modelled as `none`. -/
def ctxReplaceSystem : Ctx → Option Ctx
  | .s t => some (.s (replaceAll sysPat [] t))
  | .toks _ => none

/-- `TemplateMeta._replace_system`: elementwise placeholder removal over the
whole list; `none` when some element is a token list (AttributeError). -/
def replace_system : Prompt → Option Prompt
  | [] => some []
  | c :: rest =>
    match ctxReplaceSystem c, replace_system rest with
    | some c', some rest' => some (c' :: rest')
    | _, _ => none

/-- The ways `TemplateMeta.__post_init__` can raise. -/
inductive BuildError where
  /-- assert failure: the prefix already contains the system placeholder. -/
  | prefixContainsSystem
  /-- AttributeError: a token-list element has no `replace` method. -/
  | replaceOnTokenList
  /-- assert failure in `check_system`: the template does not support system. -/
  | systemNotSupported
  deriving DecidableEq

/-- The declared (pre-`__post_init__`) fields of the `TemplateMeta` dataclass.
`template_cls` (a Python class object) is modelled as an opaque tag. -/
structure TemplateMetaInput where
  template_type : String
  prefix_ : Prompt
  prompt : Prompt
  chat_sep : Option Prompt
  suffix : Prompt
  template_cls : Nat := 0
  tool_prompt : Option Prompt := none
  system_prefix_ : Option Prompt := none
  auto_add_bos : Bool := false
  default_system : Option String := none
  stop_words : List Word := []
  placeholder_tokens : List Tok := []
  skip_prompt : Bool := true
  default_tools_prompt : String := "react_en"
  support_stream : Bool := true
  deriving DecidableEq

/-- A `TemplateMeta` instance after `__post_init__` has run successfully:
`tool_prompt` is always a list, `default_system` a string, and the derived
attributes `is_post_system`, `system_prompt`, `support_system`,
`support_multi_round` are set. -/
structure TemplateMeta where
  template_type : String
  prefix_ : Prompt
  prompt : Prompt
  chat_sep : Option Prompt
  suffix : Prompt
  template_cls : Nat
  tool_prompt : Prompt
  system_prefix_ : Option Prompt
  auto_add_bos : Bool
  default_system : String
  stop_words : List Word
  placeholder_tokens : List Tok
  skip_prompt : Bool
  default_tools_prompt : String
  support_stream : Bool
  is_post_system : Bool
  system_prompt : Option Prompt
  support_system : Bool
  support_multi_round : Bool
  deriving DecidableEq

/-- `TemplateMeta.check_system`: None is normalized to the empty string; a
non-empty system asserts `support_system`. -/
def check_system (support : Bool) : Option String → Except BuildError String
  | none => .ok ""
  | some s => if s = "" then .ok "" else if support then .ok s else .error .systemNotSupported

/-- The part of `__post_init__` after the prefix/system-placeholder handling:
post-system detection and prompt filtering, `support_system`, the
`check_system` call on `default_system`, `support_multi_round`, and the
`tool_prompt` default. `pfx`/`sysPfx` are the prefix and system_prefix after
the placeholder handling. -/
def buildCore (i : TemplateMetaInput) (pfx : Prompt) (sysPfx : Option Prompt) :
    Except BuildError TemplateMeta :=
  let isPost := has_system i.prompt
  let prm := if isPost then i.prompt.filter (fun c => !ctxHasSystem c) else i.prompt
  let support := sysPfx.isSome || isPost
  match check_system support i.default_system with
  | .error e => .error e
  | .ok ds =>
    .ok { template_type := i.template_type
          prefix_ := pfx
          prompt := prm
          chat_sep := i.chat_sep
          suffix := i.suffix
          template_cls := i.template_cls
          tool_prompt := i.tool_prompt.getD prm
          system_prefix_ := sysPfx
          auto_add_bos := i.auto_add_bos
          default_system := ds
          stop_words := i.stop_words
          placeholder_tokens := i.placeholder_tokens
          skip_prompt := i.skip_prompt
          default_tools_prompt := i.default_tools_prompt
          support_stream := i.support_stream
          is_post_system := isPost
          system_prompt := if isPost then some prm else none
          support_system := support
          support_multi_round := i.chat_sep.isSome }

/-- `TemplateMeta.__post_init__` (constructing a TemplateMeta dataclass): if the
prefix embeds the system placeholder, assert that `system_prefix` is unset,
move the original prefix into `system_prefix`, and strip the placeholder from
the prefix; then run the rest of the initialization. -/
def TemplateMeta.build (i : TemplateMetaInput) : Except BuildError TemplateMeta :=
  if has_system i.prefix_ then
    if i.system_prefix_.isSome then .error .prefixContainsSystem
    else
      match replace_system i.prefix_ with
      | none => .error .replaceOnTokenList
      | some pfx => buildCore i pfx (some i.prefix_)
  else buildCore i i.prefix_ i.system_prefix_

/-- `TemplateMeta.to_generation_template_meta`: a fresh TemplateMeta with empty
prefix, bare query prompt, no chat_sep, eos suffix, `auto_add_bos=True`,
copied stop_words/placeholder_tokens, preserved skip_prompt/support_stream;
constructing it runs `__post_init__`. -/
def TemplateMeta.to_generation_template_meta (m : TemplateMeta) :
    Except BuildError TemplateMeta :=
  TemplateMeta.build
    { template_type := m.template_type
      prefix_ := []
      prompt := [Ctx.s queryStr.data]
      chat_sep := none
      suffix := [Ctx.toks [Tok.name "eos_token_id"]]
      template_cls := m.template_cls
      auto_add_bos := true
      stop_words := m.stop_words
      placeholder_tokens := m.placeholder_tokens
      skip_prompt := m.skip_prompt
      support_stream := m.support_stream }

/-- One entry of the inner comprehension of `TemplateMeta._token_attr_to_id`:
`getattr(tokenizer, sub_v) if isinstance(sub_v, str) else sub_v`. The
tokenizer is modelled as a total vocabulary `String → Int` (attribute
lookup of a well-known token name yields its integer id). -/
def resolveTok (vocab : String → Int) : Tok → Tok
  | .name s => .id (vocab s)
  | .id i => .id i

/-- One element of the outer loop of `TemplateMeta._token_attr_to_id`: a token
list is mapped through the vocabulary; a plain string passes unchanged. -/
def resolveCtx (vocab : String → Int) : Ctx → Ctx
  | .s t => .s t
  | .toks l => .toks (l.map (resolveTok vocab))

/-- `TemplateMeta._token_attr_to_id` on an optional Prompt. -/
def token_attr_to_id_field (vocab : String → Int) : Option Prompt → Option Prompt
  | none => none
  | some l => some (l.map (resolveCtx vocab))

/-- `TemplateMeta.token_attr_to_id`: rebinds exactly the five attributes
`prefix, prompt, chat_sep, suffix, system_prefix` through
`_token_attr_to_id`; the other attributes (in particular `tool_prompt`)
are left as they are. -/
def TemplateMeta.token_attr_to_id (vocab : String → Int) (m : TemplateMeta) :
    TemplateMeta :=
  { m with
    prefix_ := m.prefix_.map (resolveCtx vocab)
    prompt := m.prompt.map (resolveCtx vocab)
    chat_sep := token_attr_to_id_field vocab m.chat_sep
    suffix := m.suffix.map (resolveCtx vocab)
    system_prefix_ := token_attr_to_id_field vocab m.system_prefix_ }

/-- `TEMPLATE_MAPPING` as a lookup table (template_type → stored meta; the
extra kwargs of the stored info dict are not modelled). -/
abbrev Registry := String → Option TemplateMeta

/-- `register_template`: raise ValueError (carrying the offending
template_type) when the type is registered and `exist_ok` is not set;
otherwise store the meta under its template_type. -/
def register_template (reg : Registry) (m : TemplateMeta) (exist_ok : Bool) :
    Except String Registry :=
  if !exist_ok && (reg m.template_type).isSome then .error m.template_type
  else .ok (fun t => if t = m.template_type then some m else reg t)

/-- Spec-side relation ("each element that names a symbolic token is looked up
in the vocabulary and replaced by its integer id; elements that are already
integers pass through unchanged"), on one token-list entry. -/
def specTokRes (vocab : String → Int) : Tok → Tok → Prop
  | .name s, r => r = .id (vocab s)
  | .id i, r => r = .id i

/-- Spec-side relation on one Prompt element: literal text passes through
unchanged; a token list is resolved entrywise. -/
def specCtxRes (vocab : String → Int) : Ctx → Ctx → Prop
  | .s t, r => r = .s t
  | .toks l, r => ∃ l2, r = .toks l2 ∧ List.Forall₂ (specTokRes vocab) l l2

/-- Spec-side relation on a whole segment field. -/
def specPromptRes (vocab : String → Int) (p q : Prompt) : Prop :=
  List.Forall₂ (specCtxRes vocab) p q

/-- Spec-side relation on an optional segment field. -/
def specOptRes (vocab : String → Int) : Option Prompt → Option Prompt → Prop
  | none, r => r = none
  | some p, r => ∃ q, r = some q ∧ specPromptRes vocab p q

/-- A placeholder TemplateMeta used only as the default of `Option.getD` when
extracting the result of a construction known to succeed. -/
def defaultMeta : TemplateMeta :=
  { template_type := "", prefix_ := [], prompt := [], chat_sep := none, suffix := []
    template_cls := 0, tool_prompt := [], system_prefix_ := none, auto_add_bos := false
    default_system := "", stop_words := [], placeholder_tokens := [], skip_prompt := true
    default_tools_prompt := "", support_stream := true, is_post_system := false
    system_prompt := none, support_system := false, support_multi_round := false }

/-- A field assignment in which both the prefix and the prompt embed the
system placeholder (and system_prefix is unset). -/
def c1in : TemplateMetaInput :=
  { template_type := "t"
    prefix_ := [Ctx.s sysStr.data]
    prompt := [Ctx.s sysStr.data, Ctx.s queryStr.data]
    chat_sep := none
    suffix := [] }

/-- A field assignment with the system placeholder in the prefix and
system_prefix also set. -/
def i1a : TemplateMetaInput :=
  { template_type := "t"
    prefix_ := [Ctx.s sysStr.data]
    prompt := [Ctx.s queryStr.data]
    chat_sep := none
    suffix := []
    system_prefix_ := some [] }

/-- A field assignment with the system placeholder in the prefix only. -/
def i1b : TemplateMetaInput :=
  { template_type := "t"
    prefix_ := [Ctx.s sysStr.data]
    prompt := [Ctx.s queryStr.data]
    chat_sep := none
    suffix := [] }

/-- A plain well-formed field assignment (no system placeholder anywhere,
chat_sep set, tool_prompt and default_system left at their defaults). -/
def i3 : TemplateMetaInput :=
  { template_type := "t"
    prefix_ := []
    prompt := [Ctx.s queryStr.data]
    chat_sep := some [Ctx.s []]
    suffix := [Ctx.toks [Tok.name "eos_token_id"]] }

/-- The TemplateMeta constructed from `i3` (its construction succeeds). -/
def m3v : TemplateMeta :=
  (TemplateMeta.build i3).toOption.getD defaultMeta

/-- A field assignment with a non-empty default_system but no way to render a
system message (no system_prefix, no placeholder in prefix or prompt). -/
def i8 : TemplateMetaInput :=
  { template_type := "t"
    prefix_ := []
    prompt := [Ctx.s queryStr.data]
    chat_sep := none
    suffix := []
    default_system := some "s" }

/-- A field assignment whose tool_prompt and suffix both hold the same
symbolic token name. -/
def c2in : TemplateMetaInput :=
  { template_type := "t"
    prefix_ := []
    prompt := [Ctx.s queryStr.data]
    chat_sep := none
    suffix := [Ctx.toks [Tok.name "eos_token_id"]]
    tool_prompt := some [Ctx.toks [Tok.name "eos_token_id"]] }

/-- The TemplateMeta constructed from `c2in`. -/
def c2meta : TemplateMeta :=
  (TemplateMeta.build c2in).toOption.getD defaultMeta

/-- A vocabulary mapping every symbolic token name to id 2. -/
def vocab2 : String → Int :=
  fun _ => 2

/-- The generation variant derived from `m3v`. -/
def g5 : TemplateMeta :=
  (TemplateMeta.to_generation_template_meta m3v).toOption.getD defaultMeta

/-- The generation variant derived from `defaultMeta`. -/
def gv : TemplateMeta :=
  (TemplateMeta.to_generation_template_meta defaultMeta).toOption.getD defaultMeta

/-- A prefix string in which removing the placeholder re-creates it by
concatenation: Python replace of the placeholder by the empty string in
this string yields exactly the placeholder again. -/
def ovlStr : String := "\x7b\x7bSYST\x7b\x7bSYSTEM\x7d\x7dEM\x7d\x7d"

/-- A field assignment whose prefix embeds the placeholder with overlap. -/
def c9in : TemplateMetaInput :=
  { template_type := "t"
    prefix_ := [Ctx.s ovlStr.data]
    prompt := [Ctx.s queryStr.data]
    chat_sep := none
    suffix := [] }

/-- The TemplateMeta constructed from `c9in` (its construction succeeds). -/
def m9 : TemplateMeta :=
  (TemplateMeta.build c9in).toOption.getD defaultMeta

/-- A registry holding one entry, under the template_type of `defaultMeta`. -/
def regOne : Registry :=
  fun t => if t = "" then some defaultMeta else none

/-- The value `to_generation_template_meta` produces (spelled out field by
field), for comparison with the run of `__post_init__` it triggers. -/
def genMeta (m : TemplateMeta) : TemplateMeta :=
  { template_type := m.template_type, prefix_ := [], prompt := [Ctx.s queryStr.data]
    chat_sep := none, suffix := [Ctx.toks [Tok.name "eos_token_id"]]
    template_cls := m.template_cls, tool_prompt := [Ctx.s queryStr.data]
    system_prefix_ := none, auto_add_bos := true, default_system := ""
    stop_words := m.stop_words, placeholder_tokens := m.placeholder_tokens
    skip_prompt := m.skip_prompt, default_tools_prompt := "react_en"
    support_stream := m.support_stream, is_post_system := false
    system_prompt := none, support_system := false, support_multi_round := false }

/-- An argument of `MeanMetric.update`: a scalar, or a list/tuple of scalars
(a tensor or ndarray is first turned into its list of entries by `tolist()`,
so it arrives here as the list case). Python floats are modelled as ℚ. -/
inductive MItem where
  | scalar (v : ℚ)
  | items (l : List ℚ)

/-- The state of a `MeanMetric`: the running sum and the running count, with
`add_state` defaults 0. and 0. -/
structure MeanMetric where
  state : ℚ
  count : ℕ

/-- A freshly constructed (or reset) `MeanMetric`. -/
def MeanMetric.init : MeanMetric :=
  { state := 0, count := 0 }

/-- `MeanMetric.update`: a list or tuple contributes its element sum and its
length as count; any other (scalar) state contributes itself with count 1. -/
def MeanMetric.update (m : MeanMetric) : MItem → MeanMetric
  | .scalar v => { state := m.state + v, count := m.count + 1 }
  | .items l => { state := m.state + l.sum, count := m.count + l.length }

/-- `MeanMetric.compute`: `state / count if count > 0 else 0` (the value
entry of the returned dict). -/
def MeanMetric.compute (m : MeanMetric) : ℚ :=
  if 0 < m.count then m.state / (m.count : ℚ) else 0

/-- The contribution of one update argument to the running sum. -/
def itemSum : MItem → ℚ
  | .scalar v => v
  | .items l => l.sum

/-- The contribution of one update argument to the running count. -/
def itemCount : MItem → ℕ
  | .scalar _ => 1
  | .items l => l.length

end MsSwift

namespace MsSwift

theorem buildCore_fields (i : TemplateMetaInput) (pfx : Prompt) (sysPfx : Option Prompt)
    (m : TemplateMeta) (h : buildCore i pfx sysPfx = .ok m) :
    m.is_post_system = has_system i.prompt ∧
    m.system_prefix_ = sysPfx ∧
    m.support_system = (sysPfx.isSome || has_system i.prompt) ∧
    m.support_multi_round = i.chat_sep.isSome ∧
    m.chat_sep = i.chat_sep ∧
    m.prompt = (if has_system i.prompt then i.prompt.filter (fun c => !ctxHasSystem c)
                else i.prompt) ∧
    m.prefix_ = pfx ∧
    m.tool_prompt = i.tool_prompt.getD m.prompt ∧
    check_system (sysPfx.isSome || has_system i.prompt) i.default_system
      = .ok m.default_system := by
  simp only [buildCore] at h
  cases hc : check_system (sysPfx.isSome || has_system i.prompt) i.default_system with
  | error e => rw [hc] at h; simp at h
  | ok ds =>
    rw [hc] at h
    simp only [Except.ok.injEq] at h
    subst h
    exact ⟨rfl, rfl, rfl, rfl, rfl, rfl, rfl, rfl, hc ▸ rfl⟩

theorem build_ok_cases (i : TemplateMetaInput) (m : TemplateMeta)
    (h : TemplateMeta.build i = .ok m) :
    (has_system i.prefix_ = false ∧ buildCore i i.prefix_ i.system_prefix_ = .ok m) ∨
    (has_system i.prefix_ = true ∧ i.system_prefix_ = none ∧
      ∃ pfx, replace_system i.prefix_ = some pfx ∧ buildCore i pfx (some i.prefix_) = .ok m) := by
  unfold TemplateMeta.build at h
  by_cases hp : has_system i.prefix_ = true
  · rw [if_pos hp] at h
    cases hs : i.system_prefix_ with
    | some v => rw [hs] at h; simp at h
    | none =>
      rw [hs] at h
      simp only [Option.isSome_none, Bool.false_eq_true, if_false] at h
      cases hr : replace_system i.prefix_ with
      | none => rw [hr] at h; simp at h
      | some pfx =>
        rw [hr] at h
        exact Or.inr ⟨hp, rfl, pfx, rfl, h⟩
  · rw [if_neg hp] at h
    exact Or.inl ⟨Bool.eq_false_iff.mpr hp, h⟩

end MsSwift

namespace MsSwift

theorem check_system_true_ok (d : Option String) :
    ∃ s, check_system true d = .ok s := by
  cases d with
  | none => exact ⟨"", rfl⟩
  | some s =>
    by_cases hs : s = ""
    · exact ⟨"", by simp [check_system, hs]⟩
    · exact ⟨s, by simp [check_system, hs]⟩

theorem buildCore_isOk_of_some (i : TemplateMetaInput) (pfx p0 : Prompt) :
    (buildCore i pfx (some p0)).isOk = true := by
  simp only [buildCore, Option.isSome_some, Bool.true_or]
  obtain ⟨s, hs⟩ := check_system_true_ok i.default_system
  rw [hs]
  rfl

theorem replace_system_isSome (l : Prompt)
    (h : ∀ c ∈ l, (ctxReplaceSystem c).isSome = true) :
    (replace_system l).isSome = true := by
  induction l with
  | nil => rfl
  | cons c rest ih =>
    have hc := h c (List.mem_cons_self c rest)
    have hr := ih (fun x hx => h x (List.mem_cons_of_mem c hx))
    unfold replace_system
    cases hcc : ctxReplaceSystem c with
    | none => rw [hcc] at hc; simp at hc
    | some c2 =>
      cases hrr : replace_system rest with
      | none => rw [hrr] at hr; simp at hr
      | some r2 => rfl

/-- Claim C1 (amended): constructing a TemplateMeta whose prefix embeds the
system placeholder fails with the GrammarError assert exactly when
system_prefix is also set; with system_prefix unset, construction succeeds
(whenever the prefix elements are strings), even when the prompt also
embeds the placeholder. -/
theorem build_system_conflict (i : TemplateMetaInput) :
    (has_system i.prefix_ = true → i.system_prefix_.isSome = true →
      TemplateMeta.build i = .error .prefixContainsSystem) ∧
    (has_system i.prefix_ = true → i.system_prefix_ = none →
      (∀ c ∈ i.prefix_, (ctxReplaceSystem c).isSome = true) →
      (TemplateMeta.build i).isOk = true) := by
  constructor
  · intro hp hs
    unfold TemplateMeta.build
    rw [if_pos hp, if_pos hs]
  · intro hp hs hall
    unfold TemplateMeta.build
    rw [if_pos hp, hs]
    simp only [Option.isSome_none, Bool.false_eq_true, if_false]
    have := replace_system_isSome i.prefix_ hall
    cases hr : replace_system i.prefix_ with
    | none => rw [hr] at this; simp at this
    | some pfx => exact buildCore_isOk_of_some i pfx i.prefix_

/-- Claim C1 witness: conflict input fails with the assert; prefix-and-prompt
input succeeds. -/
theorem build_system_conflict_witness :
    TemplateMeta.build i1a = .error .prefixContainsSystem ∧
    (TemplateMeta.build i1b).isOk = true :=
  ⟨(build_system_conflict i1a).1 (by decide) rfl,
   (build_system_conflict i1b).2 (by decide) rfl (by decide)⟩

/-- Claim C1 counterexample: a field assignment in which both prefix and
prompt embed the system placeholder constructs successfully, so the claim
that such a construction fails with a GrammarError is false. -/
theorem build_both_prefix_prompt_ok :
    (TemplateMeta.build c1in).isOk = true := by decide

/-- Claim C3: for every successfully constructed TemplateMeta, is_post_system
holds iff the (input) prompt embeds the system placeholder, support_system
holds iff a system prefix exists or the prompt is post-system, and
support_multi_round holds iff chat_sep is set. -/
theorem build_derived_flags (i : TemplateMetaInput) (m : TemplateMeta)
    (h : TemplateMeta.build i = .ok m) :
    m.is_post_system = has_system i.prompt ∧
    m.support_system = (m.system_prefix_.isSome || m.is_post_system) ∧
    m.support_multi_round = m.chat_sep.isSome := by
  rcases build_ok_cases i m h with ⟨hp, hc⟩ | ⟨hp, hs, pfx, hr, hc⟩ <;>
  · obtain ⟨f1, f2, f3, f4, f5, _⟩ := buildCore_fields _ _ _ _ hc
    refine ⟨f1, ?_, ?_⟩
    · rw [f3, f2, f1]
    · rw [f4, f5]

/-- Claim C3 witness at a concrete successful construction. -/
theorem build_derived_flags_witness :
    m3v.is_post_system = has_system i3.prompt ∧
    m3v.support_system = (m3v.system_prefix_.isSome || m3v.is_post_system) ∧
    m3v.support_multi_round = m3v.chat_sep.isSome :=
  build_derived_flags i3 m3v rfl

/-- Claim C7: a TemplateMeta constructed without an explicit tool_prompt gets
its prompt as tool_prompt. -/
theorem build_tool_prompt_default (i : TemplateMetaInput) (m : TemplateMeta)
    (h1 : i.tool_prompt = none) (h2 : TemplateMeta.build i = .ok m) :
    m.tool_prompt = m.prompt := by
  rcases build_ok_cases i m h2 with ⟨hp, hc⟩ | ⟨hp, hs, pfx, hr, hc⟩ <;>
  · obtain ⟨_, _, _, _, _, _, _, f8, _⟩ := buildCore_fields _ _ _ _ hc
    rw [f8, h1]
    rfl

/-- Claim C7 witness at a concrete construction without tool_prompt. -/
theorem build_tool_prompt_default_witness : m3v.tool_prompt = m3v.prompt :=
  build_tool_prompt_default i3 m3v rfl rfl

/-- Claim C8: default_system None is normalized to the empty string, and a
non-empty default_system on a spec that cannot render a system (no
system_prefix, no placeholder in prefix or prompt) makes construction fail
with the check_system assert. -/
theorem build_default_system_check (i : TemplateMetaInput) :
    (i.default_system = none → ∀ m : TemplateMeta, TemplateMeta.build i = .ok m →
      m.default_system = "") ∧
    (∀ s : String, i.default_system = some s → ¬s = "" →
      i.system_prefix_ = none → has_system i.prefix_ = false →
      has_system i.prompt = false →
      TemplateMeta.build i = .error .systemNotSupported) := by
  constructor
  · intro hd m h
    rcases build_ok_cases i m h with ⟨hp, hc⟩ | ⟨hp, hs, pfx, hr, hc⟩ <;>
    · obtain ⟨_, _, _, _, _, _, _, _, f9⟩ := buildCore_fields _ _ _ _ hc
      rw [hd] at f9
      simp only [check_system, Except.ok.injEq] at f9
      exact f9.symm
  · intro s hd hs hsp hpre hpro
    unfold TemplateMeta.build
    rw [hpre]
    simp only [Bool.false_eq_true, if_false]
    simp only [buildCore, hsp, hpro, hd, Option.isSome_none, Bool.or_self]
    simp [check_system, hs]

/-- Claim C8 witness: a concrete None default_system is normalized to the
empty string, and a concrete unsupported non-empty default_system fails. -/
theorem build_default_system_check_witness :
    m3v.default_system = "" ∧
    TemplateMeta.build i8 = .error .systemNotSupported :=
  ⟨(build_default_system_check i3).1 rfl m3v rfl,
   (build_default_system_check i8).2 "s" rfl (by decide) rfl (by decide) (by decide)⟩

end MsSwift

namespace MsSwift

theorem to_generation_eq (m : TemplateMeta) :
    TemplateMeta.to_generation_template_meta m = Except.ok (genMeta m) := rfl

/-- Claim C9 (amended): after a successful construction no prompt element
contains the system placeholder; the prefix has had the non-overlapping
left-to-right placeholder removal applied (which can re-create the
placeholder by concatenation); the generation variant also satisfies the
prompt/prefix property. -/
theorem build_strips_system_placeholder :
    (∀ (i : TemplateMetaInput) (m : TemplateMeta), TemplateMeta.build i = .ok m →
      (∀ c ∈ m.prompt, ctxHasSystem c = false) ∧
      (has_system i.prefix_ = false → m.prefix_ = i.prefix_) ∧
      (has_system i.prefix_ = true → replace_system i.prefix_ = some m.prefix_)) ∧
    (∀ (g v : TemplateMeta), TemplateMeta.to_generation_template_meta g = .ok v →
      (∀ c ∈ v.prefix_, ctxHasSystem c = false) ∧
      (∀ c ∈ v.prompt, ctxHasSystem c = false)) := by
  constructor
  · intro i m h
    rcases build_ok_cases i m h with ⟨hp, hc⟩ | ⟨hp, hs, pfx, hr, hc⟩
    · obtain ⟨_, _, _, _, _, f6, f7, _⟩ := buildCore_fields _ _ _ _ hc
      refine ⟨?_, fun _ => f7, ?_⟩
      case refine_2 => intro hcon; simp [hp] at hcon
      intro c hcm
      rw [f6] at hcm
      by_cases hps : has_system i.prompt = true
      · rw [if_pos hps] at hcm
        have := List.mem_filter.mp hcm
        simpa using this.2
      · rw [if_neg hps] at hcm
        have hfalse : has_system i.prompt = false := Bool.eq_false_iff.mpr hps
        simp only [has_system, List.any_eq_false] at hfalse
        exact Bool.eq_false_iff.mpr (hfalse c hcm)
    · obtain ⟨_, _, _, _, _, f6, f7, _⟩ := buildCore_fields _ _ _ _ hc
      refine ⟨?_, ?_, ?_⟩
      case refine_2 => intro hcon; simp [hp] at hcon
      case refine_3 => intro _; rw [hr, f7]
      intro c hcm
      rw [f6] at hcm
      by_cases hps : has_system i.prompt = true
      · rw [if_pos hps] at hcm
        have := List.mem_filter.mp hcm
        simpa using this.2
      · rw [if_neg hps] at hcm
        have hfalse : has_system i.prompt = false := Bool.eq_false_iff.mpr hps
        simp only [has_system, List.any_eq_false] at hfalse
        exact Bool.eq_false_iff.mpr (hfalse c hcm)
  · intro g v h
    rw [to_generation_eq] at h
    injection h with h
    subst h
    refine ⟨?_, ?_⟩ <;> intro c hc
    · simp [genMeta] at hc
    · simp [genMeta] at hc
      subst hc
      decide

/-- Claim C9 witness: the general statement at a concrete construction and a
concrete generation variant. -/
theorem build_strips_system_placeholder_witness :
    ((∀ c ∈ m3v.prompt, ctxHasSystem c = false) ∧
      (has_system i3.prefix_ = false → m3v.prefix_ = i3.prefix_) ∧
      (has_system i3.prefix_ = true → replace_system i3.prefix_ = some m3v.prefix_)) ∧
    ((∀ c ∈ gv.prefix_, ctxHasSystem c = false) ∧
      (∀ c ∈ gv.prompt, ctxHasSystem c = false)) :=
  ⟨build_strips_system_placeholder.1 i3 m3v rfl,
   build_strips_system_placeholder.2 defaultMeta gv rfl⟩

/-- Claim C9 counterexample: constructing with the overlap prefix `ovlStr`
succeeds, yet the resulting prefix element is exactly the system
placeholder (the non-overlapping removal re-created it), so the claim that
no element of the prefix contains the placeholder is false. -/
theorem build_prefix_keeps_placeholder :
    (TemplateMeta.build c9in).isOk = true ∧
    m9.prefix_ = [Ctx.s sysStr.data] ∧
    has_system m9.prefix_ = true := by decide

/-- Claim C5 (amended): deriving the generation variant always succeeds and
yields empty prefix, bare query prompt, no chat_sep, eos suffix, no
system_prefix, auto_add_bos forced to true, default_system and
default_tools_prompt reset to their defaults; template_type, template_cls,
stop_words, placeholder_tokens, skip_prompt and support_stream are
preserved by value (the embedding is pure, so the source is unchanged). -/
theorem to_generation_fields (m : TemplateMeta) :
    ∃ v, TemplateMeta.to_generation_template_meta m = .ok v ∧
      v.prefix_ = [] ∧ v.prompt = [Ctx.s queryStr.data] ∧ v.chat_sep = none ∧
      v.suffix = [Ctx.toks [Tok.name "eos_token_id"]] ∧
      v.tool_prompt = [Ctx.s queryStr.data] ∧
      v.system_prefix_ = none ∧ v.auto_add_bos = true ∧ v.default_system = "" ∧
      v.default_tools_prompt = "react_en" ∧
      v.template_type = m.template_type ∧ v.template_cls = m.template_cls ∧
      v.stop_words = m.stop_words ∧ v.placeholder_tokens = m.placeholder_tokens ∧
      v.skip_prompt = m.skip_prompt ∧ v.support_stream = m.support_stream ∧
      v.is_post_system = false ∧ v.support_system = false ∧
      v.support_multi_round = false :=
  ⟨genMeta m, rfl, rfl, rfl, rfl, rfl, rfl, rfl, rfl, rfl, rfl, rfl, rfl, rfl, rfl,
   rfl, rfl, rfl, rfl, rfl⟩

/-- Claim C5 counterexample: a source spec with auto_add_bos = false derives a
generation variant with auto_add_bos = true, so "all other flags preserved
by value" is false. -/
theorem to_generation_not_preserving :
    m3v.auto_add_bos = false ∧
    (TemplateMeta.to_generation_template_meta m3v).isOk = true ∧
    g5.auto_add_bos = true := by decide

theorem forall2_resolveTok (vocab : String → Int) (l : List Tok) :
    List.Forall₂ (specTokRes vocab) l (l.map (resolveTok vocab)) := by
  induction l with
  | nil => exact List.Forall₂.nil
  | cons t rest ih =>
    refine List.Forall₂.cons ?_ ih
    cases t <;> rfl

theorem forall2_resolveCtx (vocab : String → Int) (l : Prompt) :
    List.Forall₂ (specCtxRes vocab) l (l.map (resolveCtx vocab)) := by
  induction l with
  | nil => exact List.Forall₂.nil
  | cons c rest ih =>
    refine List.Forall₂.cons ?_ ih
    cases c with
    | s t => rfl
    | toks tl => exact ⟨tl.map (resolveTok vocab), rfl, forall2_resolveTok vocab tl⟩

theorem specOptRes_field (vocab : String → Int) (o : Option Prompt) :
    specOptRes vocab o (token_attr_to_id_field vocab o) := by
  cases o with
  | none => rfl
  | some l => exact ⟨l.map (resolveCtx vocab), rfl, forall2_resolveCtx vocab l⟩

/-- Claim C2 (amended): token_attr_to_id resolves symbolic names to ids (and
passes literal text and ids through unchanged) in the five fields prefix,
prompt, chat_sep, suffix and system_prefix; tool_prompt is left untouched. -/
theorem token_attr_to_id_resolves (m : TemplateMeta) (vocab : String → Int) :
    specPromptRes vocab m.prefix_ (TemplateMeta.token_attr_to_id vocab m).prefix_ ∧
    specPromptRes vocab m.prompt (TemplateMeta.token_attr_to_id vocab m).prompt ∧
    specOptRes vocab m.chat_sep (TemplateMeta.token_attr_to_id vocab m).chat_sep ∧
    specPromptRes vocab m.suffix (TemplateMeta.token_attr_to_id vocab m).suffix ∧
    specOptRes vocab m.system_prefix_
      (TemplateMeta.token_attr_to_id vocab m).system_prefix_ ∧
    (TemplateMeta.token_attr_to_id vocab m).tool_prompt = m.tool_prompt :=
  ⟨forall2_resolveCtx vocab m.prefix_, forall2_resolveCtx vocab m.prompt,
   specOptRes_field vocab m.chat_sep, forall2_resolveCtx vocab m.suffix,
   specOptRes_field vocab m.system_prefix_, rfl⟩

/-- Claim C2 counterexample: a symbolic token name in tool_prompt survives
resolution unchanged (while the same element in suffix is replaced by its
id), so "resolution replaces symbolic names in all six fields" is false. -/
theorem token_attr_to_id_skips_tool_prompt :
    (TemplateMeta.build c2in).isOk = true ∧
    (TemplateMeta.token_attr_to_id vocab2 c2meta).tool_prompt
      = [Ctx.toks [Tok.name "eos_token_id"]] ∧
    (TemplateMeta.token_attr_to_id vocab2 c2meta).suffix
      = [Ctx.toks [Tok.id 2]] := by decide

theorem resolveTok_idem (vocab : String → Int) (t : Tok) :
    resolveTok vocab (resolveTok vocab t) = resolveTok vocab t := by
  cases t <;> rfl

theorem map_resolveCtx_idem (vocab : String → Int) (l : Prompt) :
    (l.map (resolveCtx vocab)).map (resolveCtx vocab) = l.map (resolveCtx vocab) := by
  induction l with
  | nil => rfl
  | cons c rest ih =>
    simp only [List.map_cons, ih, List.cons.injEq, and_true]
    cases c with
    | s t => rfl
    | toks tl =>
      simp only [resolveCtx, Ctx.toks.injEq, List.map_map]
      induction tl with
      | nil => rfl
      | cons t ts iht => simp only [List.map_cons, Function.comp_apply,
          resolveTok_idem, List.cons.injEq, true_and]; exact iht

theorem tfield_idem (vocab : String → Int) (o : Option Prompt) :
    token_attr_to_id_field vocab (token_attr_to_id_field vocab o)
      = token_attr_to_id_field vocab o := by
  cases o with
  | none => rfl
  | some l => simp only [token_attr_to_id_field, map_resolveCtx_idem]

/-- Claim C4: resolving an already-resolved TemplateMeta with the same
vocabulary leaves every segment field unchanged. -/
theorem token_attr_to_id_idempotent (m : TemplateMeta) (vocab : String → Int) :
    (TemplateMeta.token_attr_to_id vocab (TemplateMeta.token_attr_to_id vocab m)).prefix_
        = (TemplateMeta.token_attr_to_id vocab m).prefix_ ∧
    (TemplateMeta.token_attr_to_id vocab (TemplateMeta.token_attr_to_id vocab m)).prompt
        = (TemplateMeta.token_attr_to_id vocab m).prompt ∧
    (TemplateMeta.token_attr_to_id vocab (TemplateMeta.token_attr_to_id vocab m)).chat_sep
        = (TemplateMeta.token_attr_to_id vocab m).chat_sep ∧
    (TemplateMeta.token_attr_to_id vocab (TemplateMeta.token_attr_to_id vocab m)).suffix
        = (TemplateMeta.token_attr_to_id vocab m).suffix ∧
    (TemplateMeta.token_attr_to_id vocab
        (TemplateMeta.token_attr_to_id vocab m)).system_prefix_
        = (TemplateMeta.token_attr_to_id vocab m).system_prefix_ ∧
    (TemplateMeta.token_attr_to_id vocab (TemplateMeta.token_attr_to_id vocab m)).tool_prompt
        = (TemplateMeta.token_attr_to_id vocab m).tool_prompt :=
  ⟨map_resolveCtx_idem vocab m.prefix_, map_resolveCtx_idem vocab m.prompt,
   tfield_idem vocab m.chat_sep, map_resolveCtx_idem vocab m.suffix,
   tfield_idem vocab m.system_prefix_, rfl⟩

/-- Claim C6: registering an already-registered template_type without the
override flag fails (the registry is not touched: no new registry is
produced); with the flag, or for a fresh template_type, the meta is stored
under its template_type and all other entries are unchanged. -/
theorem register_template_correct (reg : Registry) (m : TemplateMeta) :
    ((reg m.template_type).isSome = true →
      register_template reg m false = .error m.template_type) ∧
    (∀ eok : Bool, ((reg m.template_type).isSome = false ∨ eok = true) →
      ∃ reg2 : Registry, register_template reg m eok = .ok reg2 ∧
        reg2 m.template_type = some m ∧
        ∀ t, ¬t = m.template_type → reg2 t = reg t) := by
  constructor
  · intro h
    simp [register_template, h]
  · intro eok h
    refine ⟨fun t => if t = m.template_type then some m else reg t, ?_, by simp, ?_⟩
    · unfold register_template
      rcases h with h | h
      · rw [h]; simp
      · rw [h]; simp
    · intro t ht
      simp [ht]

/-- Claim C6 witness: a duplicate registration fails on a concrete registry,
and an overriding registration stores the entry. -/
theorem register_template_correct_witness :
    register_template regOne defaultMeta false = .error defaultMeta.template_type ∧
    ∃ reg2 : Registry, register_template regOne defaultMeta true = .ok reg2 ∧
      reg2 defaultMeta.template_type = some defaultMeta ∧
      ∀ t, ¬t = defaultMeta.template_type → reg2 t = regOne t :=
  ⟨(register_template_correct regOne defaultMeta).1 rfl,
   (register_template_correct regOne defaultMeta).2 true (Or.inr rfl)⟩

theorem foldl_update_eq (xs : List MItem) : ∀ (s : ℚ) (c : ℕ),
    xs.foldl MeanMetric.update ⟨s, c⟩ =
      ⟨s + (xs.map itemSum).sum, c + (xs.map itemCount).sum⟩ := by
  induction xs with
  | nil => intro s c; simp
  | cons x rest ih =>
    intro s c
    have hx : MeanMetric.update ⟨s, c⟩ x = ⟨s + itemSum x, c + itemCount x⟩ := by
      cases x <;> rfl
    simp only [List.foldl_cons, hx, ih, List.map_cons, List.sum_cons]
    simp [MeanMetric.mk.injEq, add_assoc]

/-- Claim C10: after any finite sequence of updates on a fresh MeanMetric,
compute returns the total sum divided by the total count when the count is
positive, and 0 otherwise (the division is guarded). -/
theorem meanMetric_compute_correct (xs : List MItem) :
    MeanMetric.compute (xs.foldl MeanMetric.update MeanMetric.init) =
      (if 0 < (xs.map itemCount).sum then
        (xs.map itemSum).sum / ((xs.map itemCount).sum : ℚ)
      else 0) := by
  have h := foldl_update_eq xs 0 0
  rw [show MeanMetric.init = (⟨0, 0⟩ : MeanMetric) from rfl, h]
  simp [MeanMetric.compute]

end MsSwift
